import Mathlib

/-!
Verification of the mock-transaction workbench (`src/subcommands/mock_tx.rs`)
against its design specification.

Shallow embedding conventions:
* 256-bit hashes (`H256`) and 160-bit identities (`H160`) are modelled as
  `Nat` resp. byte lists (`List Nat`); byte payloads (`Bytes`) as `List Nat`.
* Fallible Rust functions returning `Result<T, String>` become
  `Except String T`.
* External capabilities that the glue code merely calls (the serde parsers,
  the RPC client, the key-store signer, the renderer, the broadcast RPC)
  are passed as function parameters.
* The ckb-sdk `MockTransactionHelper` methods (`complete_tx` as a helper,
  `verify`, `fill_deps`) belong to this repository but their source is not
  part of the unit under `src/`; they are modelled from the specification
  (each such definition's doc comment says so).
-/

/-- An out-point: (producing-transaction hash, output index).
Mirrors `ckb_types::packed::OutPoint` as used in the source. -/
structure OutPoint where
  tx_hash : Nat
  index : Nat
deriving DecidableEq, BEq, Repr

/-- A script (predicate): code hash, hash type and argument bytes.
Mirrors `ckb_types::packed::Script`.  `ScriptHashType::Type` is encoded
as `hash_type = 1` (`Data` would be `0`). -/
structure Script where
  code_hash : Nat
  hash_type : Nat
  args : List Nat
deriving DecidableEq, BEq, Repr

/-- A cell output descriptor: capacity (shannons), owning/lock predicate and
optional type predicate.  Mirrors `ckb_types::packed::CellOutput`. -/
structure CellOutput where
  capacity : Nat
  lock : Script
  type_ : Option Script
deriving DecidableEq, BEq, Repr

/-- A transaction input: previous out-point plus `since` constraint.
Mirrors `ckb_types::packed::CellInput`. -/
structure CellInput where
  previous_output : OutPoint
  since : Nat
deriving DecidableEq, BEq, Repr

/-- A cell dependency reference.  Mirrors `ckb_types::packed::CellDep`
(the dep-type field is not inspected by the code under verification). -/
structure CellDep where
  out_point : OutPoint
deriving DecidableEq, BEq, Repr

/-- A block header snapshot, identified by its hash.  Mirrors
`ckb_types::core::HeaderView`; only the hash is consulted by the
embedded operations. -/
structure Header where
  hash : Nat
  number : Nat
deriving DecidableEq, BEq, Repr

/-- `HeaderBuilder::default().build()` of the template branch. -/
def defaultHeader : Header :=
  { hash := 0, number := 0 }

/-- A resolved input of the side-bundle: the transaction input together
with the resolved cell (output descriptor + data).  Mirrors
`ckb_sdk::MockInput`. -/
structure MockInput where
  input : CellInput
  output : CellOutput
  data : List Nat
deriving DecidableEq, BEq, Repr

/-- A resolved cell dependency of the side-bundle.  Mirrors
`ckb_sdk::MockCellDep`. -/
structure MockCellDep where
  cell_dep : CellDep
  output : CellOutput
  data : List Nat
deriving DecidableEq, BEq, Repr

/-- The side-bundle: resolved inputs, cell dependencies and headers.
Mirrors `ckb_sdk::MockInfo`. -/
structure MockInfo where
  inputs : List MockInput
  cell_deps : List MockCellDep
  header_deps : List Header
deriving DecidableEq, BEq, Repr

/-- The canonical transaction body.  Mirrors the fields of
`ckb_types::packed::Transaction` that the embedded operations consult:
inputs, outputs, parallel output data, cell deps, header deps, witnesses. -/
structure Transaction where
  inputs : List CellInput
  outputs : List CellOutput
  outputs_data : List (List Nat)
  cell_deps : List CellDep
  header_deps : List Nat
  witnesses : List (List Nat)
deriving DecidableEq, BEq, Repr

/-- The Mock Bundle: transaction body plus side-bundle.  Mirrors
`ckb_sdk::MockTransaction`. -/
structure MockTransaction where
  mock_info : MockInfo
  tx : Transaction
deriving DecidableEq, BEq, Repr

/-- `H160::default()`: the zero-filled default identity (20 zero bytes).
Used by the template branch when no `lock-arg` is supplied. -/
def zeroLockArg : List Nat :=
  List.replicate 20 0

/-- `capacity_bytes!(n)`: converts CKB bytes to shannons. -/
def capacityBytes (n : Nat) : Nat :=
  n * 100000000

/-- The `sample_script` closure of the template branch
(`mock_tx.rs` lines 155-161): secp type hash, `ScriptHashType::Type`,
the lock arg as args. -/
def sample_script (secp_type_hash : Nat) (lock_arg : List Nat) : Script :=
  { code_hash := secp_type_hash, hash_type := 1, args := lock_arg }

/-- The Mock Bundle constructed by the `template` subcommand before
dependency filling (`mock_tx.rs` lines 150-199): one mock cell dep at
out-point `0xff01`, one mock input at out-point `0xff02`, one default
header dep, and a transaction with that single input, a single output
carrying the sample script as both lock and type, one empty output-data
entry and one witness `"abc"`. -/
def generate_template (secp_type_hash : Nat) (lock_arg_opt : Option (List Nat)) :
    MockTransaction :=
  let lock_arg := lock_arg_opt.getD zeroLockArg
  let s := sample_script secp_type_hash lock_arg
  let mock_cell_dep : MockCellDep :=
    { cell_dep := { out_point := { tx_hash := 0xff01, index := 0 } }
      output := { capacity := capacityBytes 600, lock := s, type_ := none }
      data := [49, 50, 51, 52] }
  let input : CellInput := { previous_output := { tx_hash := 0xff02, index := 0 }, since := 0 }
  let mock_input : MockInput :=
    { input := input
      output := { capacity := capacityBytes 300, lock := s, type_ := none }
      data := [97, 98, 99, 100] }
  let output : CellOutput :=
    { capacity := capacityBytes 120, lock := s, type_ := some s }
  let mock_info : MockInfo :=
    { inputs := [mock_input]
      cell_deps := [mock_cell_dep]
      header_deps := [defaultHeader] }
  let tx : Transaction :=
    { inputs := [input]
      outputs := [output]
      outputs_data := [[]]
      cell_deps := []
      header_deps := []
      witnesses := [[97, 98, 99]] }
  { mock_info := mock_info, tx := tx }

/-- The transaction inputs whose out-point has no resolved entry in the
side-bundle's input list. -/
def missingInputs (m : MockTransaction) : List CellInput :=
  m.tx.inputs.filter
    (fun i => ! m.mock_info.inputs.any (fun mi => mi.input.previous_output == i.previous_output))

/-- The transaction cell-dependencies whose out-point has no resolved entry
in the side-bundle's cell-dep list. -/
def missingDeps (m : MockTransaction) : List CellDep :=
  m.tx.cell_deps.filter
    (fun d => ! m.mock_info.cell_deps.any (fun md => md.cell_dep.out_point == d.out_point))

/-- The transaction header-dependency hashes with no resolved entry in the
side-bundle's header list. -/
def missingHeaders (m : MockTransaction) : List Nat :=
  m.tx.header_deps.filter
    (fun h => ! m.mock_info.header_deps.any (fun hd => hd.hash == h))

/-- The out-points on which dependency filling invokes the live-cell
loading callback: exactly the unresolved input and cell-dep out-points. -/
def fillDepsQueries (m : MockTransaction) : List OutPoint :=
  (missingInputs m).map (fun i => i.previous_output)
    ++ (missingDeps m).map (fun d => d.out_point)

/-- Resolve a list of unresolved inputs through the live-cell callback,
appending each resolved cell to the side-bundle (spec §4.2 step 1:
`None` is a fatal `ResourceNotFound`, a loader error propagates). -/
def resolveInputs (loader : OutPoint → Except String (Option (CellOutput × List Nat))) :
    List CellInput → MockInfo → Except String MockInfo
  | [], mi => .ok mi
  | i :: rest, mi =>
    match loader i.previous_output with
    | .error e => .error e
    | .ok none => .error "ResourceNotFound"
    | .ok (some (out, data)) =>
      resolveInputs loader rest
        { mi with inputs := mi.inputs ++ [{ input := i, output := out, data := data }] }

/-- Resolve a list of unresolved cell dependencies through the live-cell
callback (spec §4.2 step 2, direct resolution). -/
def resolveDeps (loader : OutPoint → Except String (Option (CellOutput × List Nat))) :
    List CellDep → MockInfo → Except String MockInfo
  | [], mi => .ok mi
  | d :: rest, mi =>
    match loader d.out_point with
    | .error e => .error e
    | .ok none => .error "ResourceNotFound"
    | .ok (some (out, data)) =>
      resolveDeps loader rest
        { mi with cell_deps := mi.cell_deps ++ [{ cell_dep := d, output := out, data := data }] }

/-- Resolve a list of unresolved header hashes (spec §4.2 step 3). -/
def resolveHeaders (hloader : Nat → Except String (Option Header)) :
    List Nat → MockInfo → Except String MockInfo
  | [], mi => .ok mi
  | h :: rest, mi =>
    match hloader h with
    | .error e => .error e
    | .ok none => .error "ResourceNotFound"
    | .ok (some hd) =>
      resolveHeaders hloader rest { mi with header_deps := mi.header_deps ++ [hd] }

/-- Modelled from the spec: `MockTransactionHelper::fill_deps` (ckb-sdk,
not part of the unit under `src/`).  Per §4.2 steps 1-3 it resolves, via
the supplied live-cell callback resp. header loader, every input
out-point, cell-dependency out-point and header hash not already present
in the side-bundle, appending the resolved records; entries already
resolved are left untouched.  Dependency-group expansion (§4.2 step 2,
second half) starts only from a newly resolved dependency cell and is
not modelled, as every bundle this development applies `fill_deps` to
has no unresolved references at all. -/
def fill_deps (loader : OutPoint → Except String (Option (CellOutput × List Nat)))
    (hloader : Nat → Except String (Option Header)) (m : MockTransaction) :
    Except String MockTransaction :=
  match resolveInputs loader (missingInputs m) m.mock_info with
  | .error e => .error e
  | .ok mi1 =>
    match resolveDeps loader (missingDeps m) mi1 with
    | .error e => .error e
    | .ok mi2 =>
      match resolveHeaders hloader (missingHeaders m) mi2 with
      | .error e => .error e
      | .ok mi3 => .ok { m with mock_info := mi3 }

/-- The `template` subcommand's bundle-producing pipeline
(`mock_tx.rs` lines 150-203): construct the sample bundle, then fill
dependencies with a live-cell callback that the source marks
`unreachable!()`. -/
def process_template (secp_type_hash : Nat) (lock_arg_opt : Option (List Nat))
    (loader : OutPoint → Except String (Option (CellOutput × List Nat)))
    (hloader : Nat → Except String (Option Header)) :
    Except String MockTransaction :=
  fill_deps loader hloader (generate_template secp_type_hash lock_arg_opt)

/-- Verification failure modes (spec §4.3 / §7). -/
inductive VerifyError where
  | IncompleteBundle : VerifyError
  | BudgetExceeded : Nat → VerifyError
  | ScriptFailure : Nat → Nat → Nat → VerifyError
deriving DecidableEq, BEq, Repr

/-- Rendering of a verification failure as the glue code's `String` error. -/
def showVerifyError : VerifyError → String
  | .IncompleteBundle => "IncompleteBundle"
  | .BudgetExceeded _ => "BudgetExceeded"
  | .ScriptFailure _ _ _ => "ScriptFailure"

/-- Completeness of a Mock Bundle (spec §3 invariant 2): every input
out-point, every cell-dependency out-point and every header-dependency
hash of the transaction body has a resolved side-bundle entry. -/
def isComplete (m : MockTransaction) : Bool :=
  m.tx.inputs.all
      (fun i => m.mock_info.inputs.any (fun mi => mi.input.previous_output == i.previous_output))
    && m.tx.cell_deps.all
      (fun d => m.mock_info.cell_deps.any (fun md => md.cell_dep.out_point == d.out_point))
    && m.tx.header_deps.all
      (fun h => m.mock_info.header_deps.any (fun hd => hd.hash == h))

/-- The read-only execution view handed to the script-execution
capability: assembled from the side-bundle and the transaction body
(with its witnesses) alone (spec §4.3). -/
structure ExecContext where
  mock_info : MockInfo
  tx : Transaction
deriving DecidableEq, BEq, Repr

/-- Assemble the execution view of a bundle. -/
def mkContext (m : MockTransaction) : ExecContext :=
  { mock_info := m.mock_info, tx := m.tx }

/-- The resolved cell backing an input out-point, looked up in the
side-bundle. -/
def resolvedInputCell (mi : MockInfo) (op : OutPoint) : Option CellOutput :=
  (mi.inputs.find? (fun i => i.input.previous_output == op)).map (fun i => i.output)

/-- The predicates executed by verification, in execution order
(spec §4.3): all input owning-predicates in input order, then the type
predicates of the input cells, then the type predicates of the outputs. -/
def predicates (m : MockTransaction) : List Script :=
  let inputCells := m.tx.inputs.filterMap
    (fun i => resolvedInputCell m.mock_info i.previous_output)
  inputCells.map (fun c => c.lock)
    ++ inputCells.filterMap (fun c => c.type_)
    ++ m.tx.outputs.filterMap (fun c => c.type_)

/-- The accumulation loop of verification (spec §4.3): each predicate is
run by the execution capability with the remaining budget; a non-zero
exit aborts with `ScriptFailure` carrying the count consumed so far;
a count that would exceed the budget aborts with `BudgetExceeded`;
otherwise the consumed cycles accumulate. -/
def verifyLoop (exec : ExecContext → Script → Nat → Except Nat Nat)
    (ctx : ExecContext) (budget : Nat) :
    List Script → Nat → Nat → Except VerifyError Nat
  | [], _, total => .ok total
  | s :: rest, idx, total =>
    match exec ctx s (budget - total) with
    | .error code => .error (.ScriptFailure idx code total)
    | .ok c =>
      if budget < total + c then .error (.BudgetExceeded total)
      else verifyLoop exec ctx budget rest (idx + 1) (total + c)

/-- The RPC client interface consumed by the loader
(`mock_tx.rs` lines 240-283): `get_header`, `get_live_cell` (returning
only the cell's output descriptor, as the glue extracts
`resp.cell.map(|info| info.output)`), and `get_transaction` (of which
the glue reads `transaction.inner.outputs_data`). -/
structure RpcClient where
  get_header : Nat → Except String (Option Header)
  get_live_cell : OutPoint → Except String (Option CellOutput)
  get_transaction : Nat → Except String (Option (List (List Nat)))

/-- Modelled from the spec: `MockTransactionHelper::verify` (ckb-sdk, not
part of the unit under `src/`).  Per §4.3 it requires a complete bundle
(`IncompleteBundle` otherwise, with no execution), assembles the
execution view entirely from the side-bundle and transaction body, and
runs every predicate through the opaque execution capability,
accumulating cycles against the budget.  The loader argument mirrors the
glue call `helper.verify(u64::max_value(), loader)`; per §5 the Verifier
performs no I/O, so the body never consults it. -/
def verify (m : MockTransaction) (budget : Nat)
    (exec : ExecContext → Script → Nat → Except Nat Nat) (loader : RpcClient) :
    Except VerifyError Nat :=
  if isComplete m then verifyLoop exec (mkContext m) budget (predicates m) 0 0
  else .error .IncompleteBundle

/-- `Loader::get_header` (`mock_tx.rs` lines 245-251): forwards the RPC
result, mapping the optional header through `Into::into` (identity in
this model) and the transport error to a string. -/
def Loader.get_header (rpc : RpcClient) (hash : Nat) : Except String (Option Header) :=
  match rpc.get_header hash with
  | .error e => .error e
  | .ok header_opt => .ok header_opt

/-- `Loader::get_live_cell` (`mock_tx.rs` lines 253-282): asks the RPC
for the live cell; on `None` returns `Ok(None)`; otherwise fetches the
producing transaction and pairs the output with the data at the
out-point's index, yielding `Ok(None)` when the transaction is absent or
its `outputs_data` is too short (checked `.get`). -/
def Loader.get_live_cell (rpc : RpcClient) (out_point : OutPoint) :
    Except String (Option (CellOutput × List Nat)) :=
  match rpc.get_live_cell out_point with
  | .error e => .error e
  | .ok none => .ok none
  | .ok (some output) =>
    match rpc.get_transaction out_point.tx_hash with
    | .error e => .error e
    | .ok tx_opt =>
      .ok (tx_opt.bind (fun outputs_data =>
        (outputs_data.get? out_point.index).map (fun data => (output, data))))

/-- The output format of the printer (`crate::utils::printer::OutputFormat`). -/
inductive OutputFormat where
  | json : OutputFormat
  | yaml : OutputFormat
deriving DecidableEq, BEq, Repr

/-- The colour flag chosen by `output_tx` (`mock_tx.rs` line 135):
colour is suppressed whenever an output file is given. -/
def outputColor (output_opt : Option Nat) (color : Bool) : Bool :=
  match output_opt with
  | some _ => false
  | none => color

/-- The `output_tx` closure (`mock_tx.rs` lines 132-147): the content
written (to the file or to stdout) is the representation rendered with
`OutputFormat::Json`, always.  `render` models
`ReprMockTransaction::from(mock_tx.clone()).render`. -/
def output_tx (render : MockTransaction → OutputFormat → Bool → String)
    (output_opt : Option Nat) (color : Bool) (m : MockTransaction) : String :=
  render m OutputFormat.json (outputColor output_opt color)

/-- The dual-syntax parse of the file content (`mock_tx.rs` lines
107-111): the tolerant syntax (`serde_yaml`) is tried first and, via
`or_else` (which discards the first error), the strict syntax
(`serde_json`) is tried only if it failed. -/
def parseReprTx (yamlP jsonP : String → Except String MockTransaction)
    (content : String) : Except String MockTransaction :=
  match yamlP content with
  | .ok t => .ok t
  | .error _ => jsonP content

/-- `u64::max_value()`, the cycle budget of every `helper.verify` call in
the glue (`mock_tx.rs` line 124). -/
def maxCycleBudget : Nat :=
  2 ^ 64 - 1

/-- The front half of the `complete_tx` closure (`mock_tx.rs` lines
102-122): read the file, parse by trial, convert, and run the ckb-sdk
completion (here the opaque capability `completeCap`, which carries the
signer and the live-cell closure). -/
def load_and_complete (readFile : Except String String)
    (yamlP jsonP : String → Except String MockTransaction)
    (completeCap : MockTransaction → Except String MockTransaction) :
    Except String MockTransaction :=
  match readFile with
  | .error e => .error e
  | .ok content =>
    match parseReprTx yamlP jsonP content with
    | .error e => .error e
    | .ok repr_tx => completeCap repr_tx

/-- The `complete_tx` closure (`mock_tx.rs` lines 100-130): load, parse
and complete, then — when the `verify` flag is set — run verification
with a budget of `u64::max_value()`, yielding the completed bundle and
the cycle count (`0` when not verifying). -/
def complete_tx (readFile : Except String String)
    (yamlP jsonP : String → Except String MockTransaction)
    (completeCap : MockTransaction → Except String MockTransaction)
    (exec : ExecContext → Script → Nat → Except Nat Nat) (loader : RpcClient)
    (doVerify : Bool) : Except String (MockTransaction × Nat) :=
  match load_and_complete readFile yamlP jsonP completeCap with
  | .error e => .error e
  | .ok mock_tx =>
    if doVerify then
      match verify mock_tx maxCycleBudget exec loader with
      | .error e => .error (showVerifyError e)
      | .ok cycle => .ok (mock_tx, cycle)
    else .ok (mock_tx, 0)

/-- The `verify` subcommand branch (`mock_tx.rs` lines 217-225): run
`complete_tx` with the verify flag set and report the transaction hash
together with the cycle count.  `hashCap` models
`core_transaction().hash()`. -/
def process_verify (hashCap : Transaction → Nat) (readFile : Except String String)
    (yamlP jsonP : String → Except String MockTransaction)
    (completeCap : MockTransaction → Except String MockTransaction)
    (exec : ExecContext → Script → Nat → Except Nat Nat) (loader : RpcClient) :
    Except String (Nat × Nat) :=
  match complete_tx readFile yamlP jsonP completeCap exec loader true with
  | .error e => .error e
  | .ok (mock_tx, cycle) => .ok (hashCap mock_tx.tx, cycle)

/-- The `send` subcommand branch (`mock_tx.rs` lines 226-234): run
`complete_tx` with the verify flag set, then broadcast the core
transaction, prefixing a broadcast failure with
`"Send transaction error: "`. -/
def process_send (broadcast : Transaction → Except String String)
    (readFile : Except String String)
    (yamlP jsonP : String → Except String MockTransaction)
    (completeCap : MockTransaction → Except String MockTransaction)
    (exec : ExecContext → Script → Nat → Except Nat Nat) (loader : RpcClient) :
    Except String String :=
  match complete_tx readFile yamlP jsonP completeCap exec loader true with
  | .error e => .error e
  | .ok (mock_tx, _cycle) =>
    match broadcast mock_tx.tx with
    | .error err => .error ("Send transaction error: " ++ err)
    | .ok resp => .ok resp

/-! ### Concrete fixtures used by the witness theorems -/

/-- A tolerant-syntax parser fixture: succeeds exactly on `"Y"`. -/
def demoYamlP : String → Except String MockTransaction :=
  fun s => if s = "Y" then .ok (generate_template 0 none) else .error "tolerant syntax error"

/-- A strict-syntax parser fixture that always fails. -/
def demoJsonP : String → Except String MockTransaction :=
  fun _ => .error "strict syntax error"

/-- A completion-capability fixture that completes every bundle as-is. -/
def demoCompleteCap : MockTransaction → Except String MockTransaction :=
  fun t => .ok t

/-- A script-execution fixture consuming one cycle per predicate. -/
def demoExec : ExecContext → Script → Nat → Except Nat Nat :=
  fun _ _ _ => .ok 1

/-- A script-execution fixture consuming no cycles (within any budget). -/
def demoExecZero : ExecContext → Script → Nat → Except Nat Nat :=
  fun _ _ _ => .ok 0

/-- An RPC fixture on which every lookup reports a missing object. -/
def demoRpc : RpcClient :=
  { get_header := fun _ => .ok none
    get_live_cell := fun _ => .ok none
    get_transaction := fun _ => .ok none }

/-- An RPC fixture on which every call fails at the transport level. -/
def demoRpcErr : RpcClient :=
  { get_header := fun _ => .error "transport failure"
    get_live_cell := fun _ => .error "transport failure"
    get_transaction := fun _ => .error "transport failure" }

/-- A bundle with one transaction input and an empty side-bundle:
incomplete by §3 invariant 2. -/
def demoIncomplete : MockTransaction :=
  { mock_info := { inputs := [], cell_deps := [], header_deps := [] }
    tx := { inputs := [{ previous_output := { tx_hash := 1, index := 0 }, since := 0 }]
            outputs := [], outputs_data := [], cell_deps := []
            header_deps := [], witnesses := [] } }

/-! ### Claims -/

/-- Claim C1: parsing tries the tolerant (YAML) syntax first and only on
its failure falls back to the strict (JSON) syntax; when both fail, the
operation returns a fatal error carrying the strict parser's diagnostic,
not the tolerant parser's. -/
theorem claim_C1_parse_order_and_diagnostic
    (yamlP jsonP : String → Except String MockTransaction) (content : String)
    (completeCap : MockTransaction → Except String MockTransaction)
    (exec : ExecContext → Script → Nat → Except Nat Nat) (loader : RpcClient)
    (t : MockTransaction) (e1 e2 : String) :
    (yamlP content = .ok t → parseReprTx yamlP jsonP content = .ok t) ∧
    (yamlP content = .error e1 → parseReprTx yamlP jsonP content = jsonP content) ∧
    (yamlP content = .error e1 → jsonP content = .error e2 →
      complete_tx (.ok content) yamlP jsonP completeCap exec loader true = .error e2) := by
  refine ⟨fun h => ?_, fun h => ?_, fun h hj => ?_⟩
  · simp [parseReprTx, h]
  · simp [parseReprTx, h]
  · simp [complete_tx, load_and_complete, parseReprTx, h, hj]

/-- Witness for C1 at concrete parsers: the tolerant parser wins on
`"Y"`; on `"Z"` both fail and the strict diagnostic is returned. -/
theorem claim_C1_witness :
    parseReprTx demoYamlP demoJsonP "Y" = .ok (generate_template 0 none) ∧
    parseReprTx demoYamlP demoJsonP "Z" = demoJsonP "Z" ∧
    complete_tx (.ok "Z") demoYamlP demoJsonP demoCompleteCap demoExec demoRpc true
      = .error "strict syntax error" := by
  refine ⟨?_, ?_, ?_⟩
  · exact (claim_C1_parse_order_and_diagnostic demoYamlP demoJsonP "Y" demoCompleteCap
      demoExec demoRpc (generate_template 0 none) "" "").1 rfl
  · exact (claim_C1_parse_order_and_diagnostic demoYamlP demoJsonP "Z" demoCompleteCap
      demoExec demoRpc (generate_template 0 none) "tolerant syntax error" "").2.1 rfl
  · exact (claim_C1_parse_order_and_diagnostic demoYamlP demoJsonP "Z" demoCompleteCap
      demoExec demoRpc (generate_template 0 none) "tolerant syntax error"
      "strict syntax error").2.2 rfl rfl

/-- Claim C2: verification is a pure function of the bundle — its result
is independent of the loader it is handed (no network access, no I/O);
on a complete bundle it runs the predicates against the view assembled
from the side-bundle and transaction body alone, and on an incomplete
bundle it returns `IncompleteBundle` without executing anything. -/
theorem claim_C2_verifier_no_io (m : MockTransaction) (budget : Nat)
    (exec : ExecContext → Script → Nat → Except Nat Nat) (l1 l2 : RpcClient) :
    verify m budget exec l1 = verify m budget exec l2 ∧
    (isComplete m = true →
      verify m budget exec l1 = verifyLoop exec (mkContext m) budget (predicates m) 0 0) ∧
    (isComplete m = false → verify m budget exec l1 = .error VerifyError.IncompleteBundle) := by
  refine ⟨rfl, fun h => ?_, fun h => ?_⟩
  · simp [verify, h]
  · simp [verify, h]

/-- Witness for C2: on a concrete incomplete bundle, verification with an
RPC-backed loader equals verification with a failing loader and returns
`IncompleteBundle`; on the concrete (complete) template it equals the
pure accumulation loop. -/
theorem claim_C2_witness :
    isComplete demoIncomplete = false ∧
    verify demoIncomplete 1 demoExec demoRpc = verify demoIncomplete 1 demoExec demoRpcErr ∧
    verify demoIncomplete 1 demoExec demoRpc = .error VerifyError.IncompleteBundle ∧
    isComplete (generate_template 0 none) = true ∧
    verify (generate_template 0 none) 9 demoExec demoRpc
      = verifyLoop demoExec (mkContext (generate_template 0 none)) 9
          (predicates (generate_template 0 none)) 0 0 := by
  refine ⟨by decide, ?_, ?_, by decide, ?_⟩
  · exact (claim_C2_verifier_no_io demoIncomplete 1 demoExec demoRpc demoRpcErr).1
  · exact (claim_C2_verifier_no_io demoIncomplete 1 demoExec demoRpc demoRpcErr).2.2 (by decide)
  · exact (claim_C2_verifier_no_io (generate_template 0 none) 9 demoExec demoRpc
      demoRpcErr).2.1 (by decide)

/-- Claim C3: the template pipeline, given an optional identity hint,
produces a bundle with exactly one input backed by a resolved cell whose
owning predicate's argument is the supplied identity (or the zero-filled
default), exactly one resolved cell dependency, exactly one resolved
header dependency, and exactly one output whose type predicate equals
its owning predicate. -/
theorem claim_C3_template_shape (secp_type_hash : Nat) (lock_arg_opt : Option (List Nat))
    (loader : OutPoint → Except String (Option (CellOutput × List Nat)))
    (hloader : Nat → Except String (Option Header)) :
    ∃ m, process_template secp_type_hash lock_arg_opt loader hloader = .ok m ∧
      m.tx.inputs.length = 1 ∧
      m.mock_info.inputs.map MockInput.input = m.tx.inputs ∧
      m.mock_info.inputs.map (fun mi => mi.output.lock.args)
        = [lock_arg_opt.getD zeroLockArg] ∧
      m.mock_info.cell_deps.length = 1 ∧
      m.mock_info.header_deps.length = 1 ∧
      ∃ o, m.tx.outputs = [o] ∧ o.type_ = some o.lock := by
  exact ⟨generate_template secp_type_hash lock_arg_opt, rfl, rfl, rfl, rfl, rfl, rfl,
    ⟨_, rfl, rfl⟩⟩

/-- Claim C4: the template generator never calls the Resource Loader —
the set of out-points on which dependency filling would invoke the
live-cell callback is empty, hence the pipeline's outcome is the same
for every callback. -/
theorem claim_C4_template_no_loader_call (secp_type_hash : Nat)
    (lock_arg_opt : Option (List Nat))
    (l1 l2 : OutPoint → Except String (Option (CellOutput × List Nat)))
    (hloader : Nat → Except String (Option Header)) :
    fillDepsQueries (generate_template secp_type_hash lock_arg_opt) = [] ∧
    process_template secp_type_hash lock_arg_opt l1 hloader
      = process_template secp_type_hash lock_arg_opt l2 hloader ∧
    process_template secp_type_hash lock_arg_opt l1 hloader
      = .ok (generate_template secp_type_hash lock_arg_opt) := by
  exact ⟨rfl, rfl, rfl⟩

/-- Claim C5: the loader returns `Ok(None)` — not an error — when the
referenced header or cell does not exist or is not live, and returns an
error exactly when the underlying RPC transport fails. -/
theorem claim_C5_loader_none_not_error (rpc : RpcClient) (h : Nat) (op : OutPoint) :
    (∀ e, Loader.get_header rpc h = .error e ↔ rpc.get_header h = .error e) ∧
    (rpc.get_header h = .ok none → Loader.get_header rpc h = .ok none) ∧
    (rpc.get_live_cell op = .ok none → Loader.get_live_cell rpc op = .ok none) ∧
    (∀ e, Loader.get_live_cell rpc op = .error e →
      rpc.get_live_cell op = .error e ∨ rpc.get_transaction op.tx_hash = .error e) := by
  refine ⟨fun e => ?_, fun hh => ?_, fun hc => ?_, fun e he => ?_⟩
  · unfold Loader.get_header
    cases hg : rpc.get_header h with
    | error e' => simp
    | ok o => simp
  · simp [Loader.get_header, hh]
  · simp [Loader.get_live_cell, hc]
  · unfold Loader.get_live_cell at he
    cases hg : rpc.get_live_cell op with
    | error e' =>
      rw [hg] at he
      simp only [Except.error.injEq] at he
      exact Or.inl (by rw [he])
    | ok o =>
      rw [hg] at he
      cases o with
      | none => simp at he
      | some output =>
        cases ht : rpc.get_transaction op.tx_hash with
        | error e' =>
          rw [ht] at he
          simp only [Except.error.injEq] at he
          exact Or.inr (by rw [he])
        | ok txo => rw [ht] at he; simp at he

/-- Witness for C5: on a concrete RPC where lookups report missing
objects the loader yields `Ok(None)`, and on a concrete RPC with a
transport failure it yields exactly that failure. -/
theorem claim_C5_witness :
    Loader.get_header demoRpc 0 = .ok none ∧
    Loader.get_live_cell demoRpc { tx_hash := 0, index := 0 } = .ok none ∧
    Loader.get_header demoRpcErr 0 = .error "transport failure" ∧
    (demoRpcErr.get_live_cell { tx_hash := 0, index := 0 } = .error "transport failure"
      ∨ demoRpcErr.get_transaction 0 = .error "transport failure") := by
  refine ⟨?_, ?_, ?_, ?_⟩
  · exact (claim_C5_loader_none_not_error demoRpc 0 { tx_hash := 0, index := 0 }).2.1 rfl
  · exact (claim_C5_loader_none_not_error demoRpc 0 { tx_hash := 0, index := 0 }).2.2.1 rfl
  · exact ((claim_C5_loader_none_not_error demoRpcErr 0
      { tx_hash := 0, index := 0 }).1 "transport failure").mpr rfl
  · exact (claim_C5_loader_none_not_error demoRpcErr 0
      { tx_hash := 0, index := 0 }).2.2.2 "transport failure" rfl

/-- Claim C9: `Loader::get_live_cell` is total under missing or short
data: when the producing transaction is absent, or its output-data list
is no longer than the out-point's index, it returns `Ok(None)` via the
checked index; when the index is in bounds it returns the paired cell. -/
theorem claim_C9_get_live_cell_checked_index (rpc : RpcClient) (op : OutPoint)
    (out : CellOutput) :
    (rpc.get_live_cell op = .ok (some out) → rpc.get_transaction op.tx_hash = .ok none →
      Loader.get_live_cell rpc op = .ok none) ∧
    (∀ outputs_data : List (List Nat), rpc.get_live_cell op = .ok (some out) →
      rpc.get_transaction op.tx_hash = .ok (some outputs_data) →
      outputs_data.length ≤ op.index →
      Loader.get_live_cell rpc op = .ok none) ∧
    (∀ (outputs_data : List (List Nat)) (data : List Nat),
      rpc.get_live_cell op = .ok (some out) →
      rpc.get_transaction op.tx_hash = .ok (some outputs_data) →
      outputs_data.get? op.index = some data →
      Loader.get_live_cell rpc op = .ok (some (out, data))) := by
  refine ⟨fun hc ht => ?_, fun od hc ht hlen => ?_, fun od data hc ht hget => ?_⟩
  · simp [Loader.get_live_cell, hc, ht]
  · have hnone : od[op.index]? = none := List.getElem?_eq_none hlen
    simp [Loader.get_live_cell, hc, ht, hnone]
  · have hsome : od[op.index]? = some data := by
      rw [← List.get?_eq_getElem? od op.index]
      exact hget
    simp [Loader.get_live_cell, hc, ht, hsome]

/-- Witness for C9: a concrete out-point of index 5 against a producing
transaction with a single output datum resolves to `Ok(None)`; a missing
producing transaction also yields `Ok(None)`. -/
theorem claim_C9_witness :
    Loader.get_live_cell
      { get_header := fun _ => Except.ok none
        get_live_cell := fun _ =>
          Except.ok (some { capacity := 1, lock := sample_script 0 [], type_ := none })
        get_transaction := fun _ => Except.ok (some [[1]]) }
      { tx_hash := 0, index := 5 } = .ok none ∧
    Loader.get_live_cell
      { get_header := fun _ => Except.ok none
        get_live_cell := fun _ =>
          Except.ok (some { capacity := 1, lock := sample_script 0 [], type_ := none })
        get_transaction := fun _ => Except.ok none }
      { tx_hash := 0, index := 5 } = .ok none := by
  refine ⟨?_, ?_⟩
  · exact (claim_C9_get_live_cell_checked_index _ { tx_hash := 0, index := 5 }
      { capacity := 1, lock := sample_script 0 [], type_ := none }).2.1 [[1]] rfl rfl
      (by decide)
  · exact (claim_C9_get_live_cell_checked_index _ { tx_hash := 0, index := 5 }
      { capacity := 1, lock := sample_script 0 [], type_ := none }).1 rfl rfl

/-- Claim C6: every bundle written out is rendered in the strict (JSON)
syntax, for every invocation of the writing closure; consequently, under
the representation layer's round-trip contract (the strict parser
re-reads what the strict renderer emitted, and the tolerant syntax is a
superset of the strict one), every produced file re-parses to the same
bundle. -/
theorem claim_C6_strict_output_reparses
    (render : MockTransaction → OutputFormat → Bool → String)
    (output_opt : Option Nat) (color : Bool) (m : MockTransaction)
    (yamlP jsonP : String → Except String MockTransaction)
    (hsuper : ∀ s t, jsonP s = .ok t → yamlP s = .ok t)
    (hround : jsonP (render m OutputFormat.json (outputColor output_opt color)) = .ok m) :
    output_tx render output_opt color m
      = render m OutputFormat.json (outputColor output_opt color) ∧
    parseReprTx yamlP jsonP (output_tx render output_opt color m) = .ok m := by
  refine ⟨rfl, ?_⟩
  have hy := hsuper _ _ hround
  simp [parseReprTx, output_tx, hy]

/-- Witness for C6 at a concrete renderer/parser pair satisfying the
round-trip contract. -/
theorem claim_C6_witness :
    output_tx (fun _ _ _ => "X") none false (generate_template 0 none) = "X" ∧
    parseReprTx
      (fun s => if s = "X" then .ok (generate_template 0 none) else .error "e")
      (fun s => if s = "X" then .ok (generate_template 0 none) else .error "e")
      (output_tx (fun _ _ _ => "X") none false (generate_template 0 none))
      = .ok (generate_template 0 none) := by
  exact claim_C6_strict_output_reparses (fun _ _ _ => "X") none false
    (generate_template 0 none)
    (fun s => if s = "X" then .ok (generate_template 0 none) else .error "e")
    (fun s => if s = "X" then .ok (generate_template 0 none) else .error "e")
    (fun _ _ hjs => hjs) rfl

/-- Claim C7: the send subcommand first completes and verifies the bundle
(the verify flag of `complete_tx` is set); if that fails, the error is
returned unchanged and the broadcast RPC is never reached — the outcome
is the same for every broadcast capability. -/
theorem claim_C7_send_gated_on_verify (readFile : Except String String)
    (yamlP jsonP : String → Except String MockTransaction)
    (completeCap : MockTransaction → Except String MockTransaction)
    (exec : ExecContext → Script → Nat → Except Nat Nat) (loader : RpcClient)
    (e : String)
    (hfail : complete_tx readFile yamlP jsonP completeCap exec loader true = .error e) :
    ∀ b1 b2 : Transaction → Except String String,
      process_send b1 readFile yamlP jsonP completeCap exec loader = .error e ∧
      process_send b1 readFile yamlP jsonP completeCap exec loader
        = process_send b2 readFile yamlP jsonP completeCap exec loader := by
  intro b1 b2
  unfold process_send
  rw [hfail]
  exact ⟨rfl, rfl⟩

/-- Witness for C7: with a concrete failing file read, the send branch
returns that failure for two different broadcast capabilities (one that
would accept, one that would fail). -/
theorem claim_C7_witness :
    process_send (fun _ => Except.ok "txid") (Except.error "read failure")
      demoYamlP demoJsonP demoCompleteCap demoExec demoRpc = .error "read failure" ∧
    process_send (fun _ => Except.ok "txid") (Except.error "read failure")
      demoYamlP demoJsonP demoCompleteCap demoExec demoRpc
      = process_send (fun _ => Except.error "refused") (Except.error "read failure")
        demoYamlP demoJsonP demoCompleteCap demoExec demoRpc := by
  exact claim_C7_send_gated_on_verify (Except.error "read failure") demoYamlP demoJsonP
    demoCompleteCap demoExec demoRpc "read failure" rfl
    (fun _ => Except.ok "txid") (fun _ => Except.error "refused")

/-- Helper: when every execution stays within the remaining budget, the
accumulation loop never reports `BudgetExceeded`. -/
theorem verifyLoop_ne_budgetExceeded
    (exec : ExecContext → Script → Nat → Except Nat Nat) (ctx : ExecContext)
    (budget : Nat)
    (hexec : ∀ s r c, exec ctx s r = .ok c → c ≤ r) :
    ∀ (scripts : List Script) (idx total : Nat), total ≤ budget → ∀ consumed,
      verifyLoop exec ctx budget scripts idx total
        ≠ .error (VerifyError.BudgetExceeded consumed) := by
  intro scripts
  induction scripts with
  | nil => intro idx total htot consumed; simp [verifyLoop]
  | cons s rest ih =>
    intro idx total htot consumed
    unfold verifyLoop
    cases h : exec ctx s (budget - total) with
    | error code => simp
    | ok c =>
      have hc : c ≤ budget - total := hexec s (budget - total) c h
      have hlt : ¬ budget < total + c := by omega
      dsimp only
      rw [if_neg hlt]
      exact ih (idx + 1) (total + c) (by omega) consumed

/-- Helper: when every execution succeeds with a budget-independent cost
and the grand total fits the budget, the accumulation loop returns the
sum of the costs. -/
theorem verifyLoop_sum
    (exec : ExecContext → Script → Nat → Except Nat Nat) (ctx : ExecContext)
    (budget : Nat) (cost : Script → Nat)
    (hexec : ∀ s r, exec ctx s r = .ok (cost s)) :
    ∀ (scripts : List Script) (idx total : Nat),
      total + (scripts.map cost).sum ≤ budget →
      verifyLoop exec ctx budget scripts idx total
        = .ok (total + (scripts.map cost).sum) := by
  intro scripts
  induction scripts with
  | nil => intro idx total htot; simp [verifyLoop]
  | cons s rest ih =>
    intro idx total htot
    rw [List.map_cons, List.sum_cons] at htot ⊢
    unfold verifyLoop
    rw [hexec s (budget - total)]
    have hlt : ¬ budget < total + cost s := by omega
    dsimp only
    rw [if_neg hlt]
    rw [ih (idx + 1) (total + cost s) (by omega)]
    congr 1
    omega

/-- Claim C8: on successful verification, the verify subcommand reports,
alongside the transaction hash, the total resource count consumed by all
predicate executions (the sum of the per-predicate costs). -/
theorem claim_C8_verify_reports_total_cycles
    (hashCap : Transaction → Nat) (readFile : Except String String)
    (yamlP jsonP : String → Except String MockTransaction)
    (completeCap : MockTransaction → Except String MockTransaction)
    (exec : ExecContext → Script → Nat → Except Nat Nat) (loader : RpcClient)
    (m : MockTransaction) (cost : Script → Nat)
    (hload : load_and_complete readFile yamlP jsonP completeCap = .ok m)
    (hcomplete : isComplete m = true)
    (hexec : ∀ s r, exec (mkContext m) s r = .ok (cost s))
    (hbudget : ((predicates m).map cost).sum ≤ maxCycleBudget) :
    process_verify hashCap readFile yamlP jsonP completeCap exec loader
      = .ok (hashCap m.tx, ((predicates m).map cost).sum) := by
  have hverify : verify m maxCycleBudget exec loader
      = .ok (((predicates m).map cost).sum) := by
    unfold verify
    rw [hcomplete, if_pos rfl]
    have := verifyLoop_sum exec (mkContext m) maxCycleBudget cost hexec (predicates m) 0 0
      (by omega)
    rw [this]
    congr 1
    omega
  unfold process_verify complete_tx
  rw [hload]
  simp only [if_pos]
  rw [hverify]

/-- Witness for C8: the complete template bundle, with an execution
capability charging one cycle per predicate, makes the verify subcommand
report two cycles (its two predicates: the input's owning predicate and
the output's type predicate) next to the hash. -/
theorem claim_C8_witness :
    process_verify (fun _ => 7) (Except.ok "file") (fun _ => Except.ok
        (generate_template 0 none))
      demoJsonP demoCompleteCap demoExec demoRpc = .ok (7, 2) := by
  exact claim_C8_verify_reports_total_cycles (fun _ => 7) (Except.ok "file")
    (fun _ => Except.ok (generate_template 0 none)) demoJsonP demoCompleteCap demoExec
    demoRpc (generate_template 0 none) (fun _ => 1) rfl (by decide)
    (fun _ _ => rfl) (by decide)

/-- Claim C10: every verification this tool performs supplies the cycle
budget `u64::max_value()`; under the execution capability's contract
(the consumed cycles never exceed the remaining budget it is given), the
`BudgetExceeded` outcome is unreachable. -/
theorem claim_C10_budget_exceeded_unreachable (m : MockTransaction)
    (exec : ExecContext → Script → Nat → Except Nat Nat) (loader : RpcClient)
    (hexec : ∀ ctx s r c, exec ctx s r = .ok c → c ≤ r) (consumed : Nat) :
    verify m maxCycleBudget exec loader
      ≠ .error (VerifyError.BudgetExceeded consumed) := by
  unfold verify
  cases h : isComplete m with
  | false => simp
  | true =>
    simp only [if_pos]
    exact verifyLoop_ne_budgetExceeded exec (mkContext m) maxCycleBudget
      (hexec (mkContext m)) (predicates m) 0 0 (Nat.zero_le _) consumed

/-- Witness for C10: on the concrete template bundle with a
zero-cycle execution capability (which trivially honours its remaining
budget), verification at the maximal budget is not `BudgetExceeded`. -/
theorem claim_C10_witness :
    verify (generate_template 0 none) maxCycleBudget demoExecZero demoRpc
      ≠ .error (VerifyError.BudgetExceeded 0) := by
  exact claim_C10_budget_exceeded_unreachable (generate_template 0 none) demoExecZero
    demoRpc (fun ctx s r c hc => by
      injection hc with hc'
      omega) 0
